import Mathlib

/-!
Verification of `src/plots/sample.py` (launchrail flight-data plotting script).

The script reads a CSV file with pandas, builds one matplotlib figure with
three 3D panels (Position, Velocity, Acceleration), each plotting one line
through the row-ordered triples of columns (Sx,Sy,Sz), (Vx,Vy,Vz), (Ax,Ay,Az),
and finally displays the figure with `plt.show()`.

Embedding choices:
- A parsed CSV file is a header (list of column names) together with a list of
  rows (each a list of cell values); cell values are an arbitrary type `α`.
- The filesystem is a partial map from paths to parsed files; `read_csv` fails
  with a data-access error (`FileNotFoundError`) on an absent path.
- Pandas column lookup `df["c"]` resolves the label to the first header index
  with that name and returns the row-ordered cell values at that index; a
  missing label raises a schema error (`KeyError` naming the column).
- The figure is observable only when control reaches `plt.show()`; an exception
  raised earlier propagates and no figure is displayed, so the renderer's
  observable result is `Except PlotError (Figure α)`: on `error`, nothing is
  shown.  The three `df[...]` lookups of each `ax.plot` call are evaluated
  left to right, exactly as Python evaluates the arguments, so lookups happen
  in the fixed order Sx, Sy, Sz, Vx, Vy, Vz, Ax, Ay, Az.
-/

namespace Launchrail

/-- A parsed delimited-text table: the header row of column names and the data
rows in file order.  Models the in-memory table produced by `pd.read_csv`. -/
structure CsvFile (α : Type) where
  header : List String
  rows : List (List α)
deriving DecidableEq

/-- The two failure kinds of the script: a data-access failure from
`pd.read_csv` on a path that is not a readable file (`FileNotFoundError`),
and a schema failure from a column lookup on an absent label (`KeyError`,
which names the missing column). -/
inductive PlotError where
  | fileNotFound (path : String)
  | missingColumn (name : String)
deriving DecidableEq

/-- The readable files: a partial map from path strings to parsed tables. -/
def FileSystem (α : Type) : Type := String → Option (CsvFile α)

/-- Models `pd.read_csv(path)`: returns the parsed table of a readable file,
and raises a data-access error on any other path. -/
def read_csv {α : Type} (fs : FileSystem α) (path : String) :
    Except PlotError (CsvFile α) :=
  match fs path with
  | some f => .ok f
  | none => .error (.fileNotFound path)

/-- First index of a column name in a header, scanning left to right; `none`
when the name does not occur.  Models pandas label-to-position resolution. -/
def idxOf? (name : String) : List String → Option Nat
  | [] => none
  | c :: cs => if c == name then some 0 else (idxOf? name cs).map (· + 1)

/-- Header position of a named column of the table. -/
def CsvFile.colIndex {α : Type} (f : CsvFile α) (name : String) : Option Nat :=
  idxOf? name f.header

/-- The row-ordered cell values found at header position `j`; a row too short
to have a cell at `j` contributes nothing (cannot happen on a rectangular
table). -/
def CsvFile.colValues {α : Type} (f : CsvFile α) (j : Nat) : List α :=
  f.rows.filterMap (fun r => r[j]?)

/-- Row-ordered values of the named column, `[]` when the column is absent. -/
def CsvFile.colD {α : Type} (f : CsvFile α) (name : String) : List α :=
  match f.colIndex name with
  | some j => f.colValues j
  | none => []

/-- Models `df[name]`: the named column's row-ordered values, or a schema
error naming the column when the label is absent. -/
def CsvFile.getCol {α : Type} (f : CsvFile α) (name : String) :
    Except PlotError (List α) :=
  match f.colIndex name with
  | some j => .ok (f.colValues j)
  | none => .error (.missingColumn name)

/-- One 3D panel of the figure: its title, the three axis labels, and the
ordered vertex sequence of its single plotted line. -/
structure Panel (α : Type) where
  title : String
  xlabel : String
  ylabel : String
  zlabel : String
  line : List (α × α × α)
deriving DecidableEq

/-- The displayed figure: its panels in left-to-right order. -/
structure Figure (α : Type) where
  panels : List (Panel α)
deriving DecidableEq

/-- Models one `fig.add_subplot(..., projection="3d")` block: the three column
lookups (left to right, as Python evaluates the `ax.plot` arguments), the
`ax.plot` zipping the three sequences into a vertex sequence, and the title
and axis-label assignments. -/
def mkPanel {α : Type} (f : CsvFile α) (cx cy cz t xl yl zl : String) :
    Except PlotError (Panel α) := do
  let xs ← f.getCol cx
  let ys ← f.getCol cy
  let zs ← f.getCol cz
  return ⟨t, xl, yl, zl, xs.zip (ys.zip zs)⟩

/-- Models `plot_flight_data(csv_path)` from `src/plots/sample.py`: read the
file, build the Position, Velocity and Acceleration panels in that order, and
display the figure.  An `error` result means an exception propagated before
`plt.show()`, so nothing is displayed. -/
def plot_flight_data {α : Type} (fs : FileSystem α) (csv_path : String) :
    Except PlotError (Figure α) := do
  let df ← read_csv fs csv_path
  let p1 ← mkPanel df "Sx" "Sy" "Sz" "Position" "X (m)" "Y (m)" "Z (m)"
  let p2 ← mkPanel df "Vx" "Vy" "Vz" "Velocity" "X (m/s)" "Y (m/s)" "Z (m/s)"
  let p3 ← mkPanel df "Ax" "Ay" "Az" "Acceleration" "X (m/s²)" "Y (m/s²)" "Z (m/s²)"
  return ⟨[p1, p2, p3]⟩

/-- The nine required columns, in the order the script looks them up. -/
def requiredColumns : List String :=
  ["Sx", "Sy", "Sz", "Vx", "Vy", "Vz", "Ax", "Ay", "Az"]

/-- A well-formed input file: all nine required columns are present and the
table is rectangular (every row has one cell per header entry). -/
def CsvFile.wellFormed {α : Type} (f : CsvFile α) : Prop :=
  (∀ c ∈ requiredColumns, c ∈ f.header) ∧ ∀ r ∈ f.rows, r.length = f.header.length

instance {α : Type} (f : CsvFile α) : Decidable f.wellFormed := by
  unfold CsvFile.wellFormed; infer_instance

/-- The vertex contributed by one row to the panel drawn from columns
`cx`, `cy`, `cz`: the row's cells at those columns' header positions
(`d` is a dummy never reached on a rectangular table with the columns
present). -/
def vertexAt {α : Type} (f : CsvFile α) (cx cy cz : String) (d : α)
    (r : List α) : α × α × α :=
  (((f.colIndex cx).bind (fun j => r[j]?)).getD d,
   ((f.colIndex cy).bind (fun j => r[j]?)).getD d,
   ((f.colIndex cz).bind (fun j => r[j]?)).getD d)

/-- The figure the script displays when all nine columns are present. -/
def figureOf {α : Type} (f : CsvFile α) : Figure α :=
  ⟨[⟨"Position", "X (m)", "Y (m)", "Z (m)",
      (f.colD "Sx").zip ((f.colD "Sy").zip (f.colD "Sz"))⟩,
    ⟨"Velocity", "X (m/s)", "Y (m/s)", "Z (m/s)",
      (f.colD "Vx").zip ((f.colD "Vy").zip (f.colD "Vz"))⟩,
    ⟨"Acceleration", "X (m/s²)", "Y (m/s²)", "Z (m/s²)",
      (f.colD "Ax").zip ((f.colD "Ay").zip (f.colD "Az"))⟩]⟩

/-- Process state for repeated invocations: the readable files and the log of
figures displayed so far. -/
structure World (α : Type) where
  fs : FileSystem α
  displayed : List (Figure α)

/-- Run the renderer once: on success the figure is displayed (appended to the
log); on failure the exception propagates and nothing is displayed. -/
def runRender {α : Type} (w : World α) (path : String) : World α :=
  match plot_flight_data w.fs path with
  | .ok fig => ⟨w.fs, w.displayed ++ [fig]⟩
  | .error _ => w

/-- The literal path hardcoded in the script's `__main__` block. -/
def launchrailCsvPath : String :=
  "/Users/adambyrne/.launchrail/motion/2025-01-26T21:47:39.csv"

/-- Models the `if __name__ == "__main__"` entry point: whatever the argument
vector is, it calls `plot_flight_data` on the hardcoded literal path. -/
def scriptMain {α : Type} (fs : FileSystem α) (_argv : List String) :
    Except PlotError (Figure α) :=
  plot_flight_data fs launchrailCsvPath

/-- Concrete two-row example file from the spec: `Sx,Sy,Sz = [0,1],[0,2],[0,3]`
and zero `Vx..Az` columns. -/
def exampleFile : CsvFile Int :=
  ⟨["Sx", "Sy", "Sz", "Vx", "Vy", "Vz", "Ax", "Ay", "Az"],
   [[0, 0, 0, 0, 0, 0, 0, 0, 0], [1, 2, 3, 0, 0, 0, 0, 0, 0]]⟩

/-- The same data as `exampleFile` with one extra column `T` appended. -/
def exampleFileExtra : CsvFile Int :=
  ⟨["Sx", "Sy", "Sz", "Vx", "Vy", "Vz", "Ax", "Ay", "Az", "T"],
   [[0, 0, 0, 0, 0, 0, 0, 0, 0, 99], [1, 2, 3, 0, 0, 0, 0, 0, 0, 100]]⟩

/-- A filesystem whose only readable file is `flight.csv` holding
`exampleFile`. -/
def exampleFs : FileSystem Int := fun p =>
  if p = "flight.csv" then some exampleFile else none

/-- A readable file with all nine required columns and zero data rows. -/
def emptyFile : CsvFile Int := ⟨requiredColumns, []⟩

/-- A readable file whose header lacks `Sy` and `Vx` (and more). -/
def missingColFile : CsvFile Int := ⟨["Sx", "Sz", "Time"], [[0, 1, 2]]⟩

/-! ### Helper lemmas -/

theorem idxOf?_eq_none {c : String} {h : List String} (hc : c ∉ h) :
    idxOf? c h = none := by
  induction h with
  | nil => rfl
  | cons a t ih =>
    have h1 : ¬a = c := fun e => hc (e ▸ List.mem_cons_self a t)
    have h2 : c ∉ t := fun m => hc (List.mem_cons_of_mem a m)
    simp [idxOf?, h1, ih h2]

theorem idxOf?_of_mem {c : String} {h : List String} (hc : c ∈ h) :
    ∃ j, idxOf? c h = some j ∧ j < h.length := by
  induction h with
  | nil => cases hc
  | cons a t ih =>
    by_cases he : a = c
    · exact ⟨0, by simp [idxOf?, he], Nat.succ_pos _⟩
    · have hct : c ∈ t := by
        rcases List.mem_cons.mp hc with h1 | h1
        · exact absurd h1.symm he
        · exact h1
      rcases ih hct with ⟨j, hj, hjl⟩
      exact ⟨j + 1, by simp [idxOf?, he, hj], Nat.succ_lt_succ hjl⟩

theorem getCol_of_mem {α : Type} (f : CsvFile α) {c : String} (hc : c ∈ f.header) :
    f.getCol c = .ok (f.colD c) := by
  rcases idxOf?_of_mem hc with ⟨j, hj, _⟩
  simp [CsvFile.getCol, CsvFile.colD, CsvFile.colIndex, hj]

theorem getCol_of_not_mem {α : Type} (f : CsvFile α) {c : String}
    (hc : c ∉ f.header) : f.getCol c = .error (.missingColumn c) := by
  simp [CsvFile.getCol, CsvFile.colIndex, idxOf?_eq_none hc]

theorem plot_flight_data_eq {α : Type} {fs : FileSystem α} {path : String}
    {f : CsvFile α} (hfs : fs path = some f)
    (h9 : ∀ c ∈ requiredColumns, c ∈ f.header) :
    plot_flight_data fs path = .ok (figureOf f) := by
  have hSx := getCol_of_mem f (h9 "Sx" (by simp [requiredColumns]))
  have hSy := getCol_of_mem f (h9 "Sy" (by simp [requiredColumns]))
  have hSz := getCol_of_mem f (h9 "Sz" (by simp [requiredColumns]))
  have hVx := getCol_of_mem f (h9 "Vx" (by simp [requiredColumns]))
  have hVy := getCol_of_mem f (h9 "Vy" (by simp [requiredColumns]))
  have hVz := getCol_of_mem f (h9 "Vz" (by simp [requiredColumns]))
  have hAx := getCol_of_mem f (h9 "Ax" (by simp [requiredColumns]))
  have hAy := getCol_of_mem f (h9 "Ay" (by simp [requiredColumns]))
  have hAz := getCol_of_mem f (h9 "Az" (by simp [requiredColumns]))
  simp [plot_flight_data, read_csv, hfs, mkPanel, figureOf, Bind.bind,
    Except.bind, Functor.map, Except.map, pure, Except.pure,
    hSx, hSy, hSz, hVx, hVy, hVz, hAx, hAy, hAz]

theorem filterMap_getElem_eq_map {α : Type} (j L : Nat) (hj : j < L)
    (rs : List (List α)) (hr : ∀ r ∈ rs, r.length = L) (d : α) :
    rs.filterMap (fun r => r[j]?) = rs.map (fun r => r[j]?.getD d) := by
  induction rs with
  | nil => rfl
  | cons r t ih =>
    have h1 : j < r.length := by rw [hr r (List.mem_cons_self r t)]; exact hj
    have h2 : r[j]? = some r[j] := List.getElem?_eq_getElem h1
    simp [List.filterMap_cons, h2,
      ih (fun r hm => hr r (List.mem_cons_of_mem _ hm))]

theorem colD_eq_map {α : Type} (f : CsvFile α) {c : String} {j : Nat}
    (hj : idxOf? c f.header = some j) (hjl : j < f.header.length)
    (hr : ∀ r ∈ f.rows, r.length = f.header.length) (d : α) :
    f.colD c = f.rows.map (fun r => r[j]?.getD d) := by
  unfold CsvFile.colD CsvFile.colIndex
  rw [hj]
  exact filterMap_getElem_eq_map j f.header.length hjl f.rows hr d

theorem panel_line_eq {α : Type} (f : CsvFile α) {cx cy cz : String}
    (hx : cx ∈ f.header) (hy : cy ∈ f.header) (hz : cz ∈ f.header)
    (hr : ∀ r ∈ f.rows, r.length = f.header.length) (d : α) :
    (f.colD cx).zip ((f.colD cy).zip (f.colD cz)) =
      f.rows.map (vertexAt f cx cy cz d) := by
  rcases idxOf?_of_mem hx with ⟨jx, hjx, hlx⟩
  rcases idxOf?_of_mem hy with ⟨jy, hjy, hly⟩
  rcases idxOf?_of_mem hz with ⟨jz, hjz, hlz⟩
  rw [colD_eq_map f hjx hlx hr d, colD_eq_map f hjy hly hr d,
    colD_eq_map f hjz hlz hr d, List.zip_map', List.zip_map']
  refine congrArg (fun g => List.map g f.rows) ?_
  funext r
  simp [vertexAt, CsvFile.colIndex, hjx, hjy, hjz]

theorem figureOf_lines {α : Type} (f : CsvFile α) (hwf : f.wellFormed) (d : α) :
    (figureOf f).panels.map Panel.line =
      [f.rows.map (vertexAt f "Sx" "Sy" "Sz" d),
       f.rows.map (vertexAt f "Vx" "Vy" "Vz" d),
       f.rows.map (vertexAt f "Ax" "Ay" "Az" d)] := by
  obtain ⟨h9, hr⟩ := hwf
  simp only [figureOf, List.map_cons, List.map_nil]
  rw [panel_line_eq f (h9 "Sx" (by simp [requiredColumns]))
      (h9 "Sy" (by simp [requiredColumns])) (h9 "Sz" (by simp [requiredColumns])) hr d,
    panel_line_eq f (h9 "Vx" (by simp [requiredColumns]))
      (h9 "Vy" (by simp [requiredColumns])) (h9 "Vz" (by simp [requiredColumns])) hr d,
    panel_line_eq f (h9 "Ax" (by simp [requiredColumns]))
      (h9 "Ay" (by simp [requiredColumns])) (h9 "Az" (by simp [requiredColumns])) hr d]

theorem colD_nil {α : Type} (f : CsvFile α) (h0 : f.rows = []) (c : String) :
    f.colD c = [] := by
  unfold CsvFile.colD CsvFile.colValues
  rw [h0]
  cases f.colIndex c <;> simp

theorem plot_error_first_missing {α : Type} {fs : FileSystem α} {path : String}
    {f : CsvFile α} {c : String} (hfs : fs path = some f)
    (hfind : requiredColumns.find? (fun c0 => !(decide (c0 ∈ f.header))) = some c) :
    plot_flight_data fs path = .error (.missingColumn c) := by
  by_cases h1 : "Sx" ∈ f.header
  case neg =>
    simp [requiredColumns, List.find?, h1] at hfind
    subst hfind
    simp [plot_flight_data, read_csv, hfs, mkPanel, Bind.bind, Except.bind,
      Functor.map, Except.map, pure, Except.pure, getCol_of_not_mem f h1]
  case pos =>
  by_cases h2 : "Sy" ∈ f.header
  case neg =>
    simp [requiredColumns, List.find?, h1, h2] at hfind
    subst hfind
    simp [plot_flight_data, read_csv, hfs, mkPanel, Bind.bind, Except.bind,
      Functor.map, Except.map, pure, Except.pure, getCol_of_mem f h1, getCol_of_not_mem f h2]
  case pos =>
  by_cases h3 : "Sz" ∈ f.header
  case neg =>
    simp [requiredColumns, List.find?, h1, h2, h3] at hfind
    subst hfind
    simp [plot_flight_data, read_csv, hfs, mkPanel, Bind.bind, Except.bind,
      Functor.map, Except.map, pure, Except.pure, getCol_of_mem f h1, getCol_of_mem f h2,
      getCol_of_not_mem f h3]
  case pos =>
  by_cases h4 : "Vx" ∈ f.header
  case neg =>
    simp [requiredColumns, List.find?, h1, h2, h3, h4] at hfind
    subst hfind
    simp [plot_flight_data, read_csv, hfs, mkPanel, Bind.bind, Except.bind,
      Functor.map, Except.map, pure, Except.pure, getCol_of_mem f h1, getCol_of_mem f h2,
      getCol_of_mem f h3, getCol_of_not_mem f h4]
  case pos =>
  by_cases h5 : "Vy" ∈ f.header
  case neg =>
    simp [requiredColumns, List.find?, h1, h2, h3, h4, h5] at hfind
    subst hfind
    simp [plot_flight_data, read_csv, hfs, mkPanel, Bind.bind, Except.bind,
      Functor.map, Except.map, pure, Except.pure, getCol_of_mem f h1, getCol_of_mem f h2,
      getCol_of_mem f h3, getCol_of_mem f h4, getCol_of_not_mem f h5]
  case pos =>
  by_cases h6 : "Vz" ∈ f.header
  case neg =>
    simp [requiredColumns, List.find?, h1, h2, h3, h4, h5, h6] at hfind
    subst hfind
    simp [plot_flight_data, read_csv, hfs, mkPanel, Bind.bind, Except.bind,
      Functor.map, Except.map, pure, Except.pure, getCol_of_mem f h1, getCol_of_mem f h2,
      getCol_of_mem f h3, getCol_of_mem f h4, getCol_of_mem f h5,
      getCol_of_not_mem f h6]
  case pos =>
  by_cases h7 : "Ax" ∈ f.header
  case neg =>
    simp [requiredColumns, List.find?, h1, h2, h3, h4, h5, h6, h7] at hfind
    subst hfind
    simp [plot_flight_data, read_csv, hfs, mkPanel, Bind.bind, Except.bind,
      Functor.map, Except.map, pure, Except.pure, getCol_of_mem f h1, getCol_of_mem f h2,
      getCol_of_mem f h3, getCol_of_mem f h4, getCol_of_mem f h5,
      getCol_of_mem f h6, getCol_of_not_mem f h7]
  case pos =>
  by_cases h8 : "Ay" ∈ f.header
  case neg =>
    simp [requiredColumns, List.find?, h1, h2, h3, h4, h5, h6, h7, h8] at hfind
    subst hfind
    simp [plot_flight_data, read_csv, hfs, mkPanel, Bind.bind, Except.bind,
      Functor.map, Except.map, pure, Except.pure, getCol_of_mem f h1, getCol_of_mem f h2,
      getCol_of_mem f h3, getCol_of_mem f h4, getCol_of_mem f h5,
      getCol_of_mem f h6, getCol_of_mem f h7, getCol_of_not_mem f h8]
  case pos =>
  by_cases h9 : "Az" ∈ f.header
  case neg =>
    simp [requiredColumns, List.find?, h1, h2, h3, h4, h5, h6, h7, h8, h9] at hfind
    subst hfind
    simp [plot_flight_data, read_csv, hfs, mkPanel, Bind.bind, Except.bind,
      Functor.map, Except.map, pure, Except.pure, getCol_of_mem f h1, getCol_of_mem f h2,
      getCol_of_mem f h3, getCol_of_mem f h4, getCol_of_mem f h5,
      getCol_of_mem f h6, getCol_of_mem f h7, getCol_of_mem f h8,
      getCol_of_not_mem f h9]
  case pos =>
    simp [requiredColumns, List.find?, h1, h2, h3, h4, h5, h6, h7, h8, h9] at hfind

/-! ### Claim theorems -/

/-- Claim C1: for every well-formed input file (all nine required columns
present, N ≥ 1 rows), each of the three panels' plotted lines has an ordered
vertex sequence equal to the row-order sequence of the (Sx,Sy,Sz), (Vx,Vy,Vz)
and (Ax,Ay,Az) triples respectively, as they appear in the input file — each
line is the row list mapped, in file order, to that row's cells at the three
columns' header positions, so there is no reordering, filtering or resampling
(the dummy `d` is arbitrary: no default value is ever substituted). -/
theorem plot_lines_row_order {α : Type} (fs : FileSystem α) (path : String)
    (f : CsvFile α) (d : α) (hfs : fs path = some f) (hwf : f.wellFormed)
    (_hN : 1 ≤ f.rows.length) :
    ∃ fig, plot_flight_data fs path = .ok fig ∧
      fig.panels.map Panel.line =
        [f.rows.map (vertexAt f "Sx" "Sy" "Sz" d),
         f.rows.map (vertexAt f "Vx" "Vy" "Vz" d),
         f.rows.map (vertexAt f "Ax" "Ay" "Az" d)] :=
  ⟨figureOf f, plot_flight_data_eq hfs hwf.1, figureOf_lines f hwf d⟩

/-- Witness for the preceding theorem at the concrete two-row example file. -/
theorem plot_lines_row_order_witness :
    ∃ fig, plot_flight_data exampleFs "flight.csv" = .ok fig ∧
      fig.panels.map Panel.line =
        [exampleFile.rows.map (vertexAt exampleFile "Sx" "Sy" "Sz" 0),
         exampleFile.rows.map (vertexAt exampleFile "Vx" "Vy" "Vz" 0),
         exampleFile.rows.map (vertexAt exampleFile "Ax" "Ay" "Az" 0)] :=
  plot_lines_row_order exampleFs "flight.csv" exampleFile 0 (by decide)
    (by decide) (by decide)

/-- Claim C2: for every well-formed input file with N ≥ 1 rows and all nine
required columns, the renderer produces exactly three panels in the fixed
order Position, Velocity, Acceleration, with those titles and with the axis
labels `X (m)`/`Y (m)`/`Z (m)`, `X (m/s)`/`Y (m/s)`/`Z (m/s)` and
`X (m/s²)`/`Y (m/s²)`/`Z (m/s²)` respectively. -/
theorem plot_panels_titles_labels {α : Type} (fs : FileSystem α) (path : String)
    (f : CsvFile α) (hfs : fs path = some f) (hwf : f.wellFormed)
    (_hN : 1 ≤ f.rows.length) :
    ∃ fig, plot_flight_data fs path = .ok fig ∧
      fig.panels.map (fun p => (p.title, p.xlabel, p.ylabel, p.zlabel)) =
        [("Position", "X (m)", "Y (m)", "Z (m)"),
         ("Velocity", "X (m/s)", "Y (m/s)", "Z (m/s)"),
         ("Acceleration", "X (m/s²)", "Y (m/s²)", "Z (m/s²)")] :=
  ⟨figureOf f, plot_flight_data_eq hfs hwf.1, by simp [figureOf]⟩

/-- Witness for the preceding theorem at the concrete two-row example file. -/
theorem plot_panels_titles_labels_witness :
    ∃ fig, plot_flight_data exampleFs "flight.csv" = .ok fig ∧
      fig.panels.map (fun p => (p.title, p.xlabel, p.ylabel, p.zlabel)) =
        [("Position", "X (m)", "Y (m)", "Z (m)"),
         ("Velocity", "X (m/s)", "Y (m/s)", "Z (m/s)"),
         ("Acceleration", "X (m/s²)", "Y (m/s²)", "Z (m/s²)")] :=
  plot_panels_titles_labels exampleFs "flight.csv" exampleFile (by decide)
    (by decide) (by decide)

/-- Claim C3: for every readable input file missing at least one of the nine
required columns, the renderer fails with a schema error (a `KeyError` naming
a column); the result is an error, not a figure, so nothing is displayed —
`plt.show()` is never reached and no partial figure appears. -/
theorem plot_missing_column_fails {α : Type} (fs : FileSystem α) (path : String)
    (f : CsvFile α) (c0 : String) (hfs : fs path = some f)
    (hc0 : c0 ∈ requiredColumns) (hmiss : c0 ∉ f.header) :
    ∃ c, plot_flight_data fs path = .error (.missingColumn c) := by
  have hsome : (requiredColumns.find? (fun c1 => !(decide (c1 ∈ f.header)))).isSome := by
    rw [List.find?_isSome]
    exact ⟨c0, hc0, by simp [hmiss]⟩
  rcases Option.isSome_iff_exists.mp hsome with ⟨c, hc⟩
  exact ⟨c, plot_error_first_missing hfs hc⟩

/-- Witness for the preceding theorem at a concrete file lacking `Sy`. -/
theorem plot_missing_column_fails_witness :
    ∃ c, plot_flight_data (fun _ => some missingColFile) "motion.csv" =
      .error (.missingColumn c) :=
  plot_missing_column_fails (fun _ => some missingColFile) "motion.csv"
    missingColFile "Sy" rfl (by decide) (by decide)

/-- Claim C4: for every path that is not a readable file, the renderer fails
during the load step with the data-access error (`fileNotFound`), not a
schema (`missingColumn`) error, and no figure is produced. -/
theorem plot_missing_file_fails {α : Type} (fs : FileSystem α) (path : String)
    (hfs : fs path = none) :
    plot_flight_data fs path = .error (.fileNotFound path) := by
  simp [plot_flight_data, read_csv, hfs, Bind.bind, Except.bind]

/-- Witness for the preceding theorem at a filesystem with no readable file. -/
theorem plot_missing_file_fails_witness :
    plot_flight_data (fun _ => (none : Option (CsvFile Int))) "nofile.csv" =
      .error (.fileNotFound "nofile.csv") :=
  plot_missing_file_fails (fun _ => none) "nofile.csv" rfl

/-- Claim C5: the renderer is deterministic across runs: starting from any
process state whose filesystem maps `path` to a well-formed file, running the
renderer twice on that path displays the same figure both times — the same
single figure value is appended to the display log twice, so the two runs'
panel vertex sequences are identical and no carried state affects them. -/
theorem plot_rerun_same_figure {α : Type} (w : World α) (path : String)
    (f : CsvFile α) (hfs : w.fs path = some f) (hwf : f.wellFormed) :
    ∃ fig, (runRender (runRender w path) path).displayed =
      w.displayed ++ [fig, fig] := by
  have hp := plot_flight_data_eq hfs hwf.1
  refine ⟨figureOf f, ?_⟩
  simp [runRender, hp]

/-- Witness for the preceding theorem at the concrete two-row example file. -/
theorem plot_rerun_same_figure_witness :
    ∃ fig, (runRender (runRender ⟨exampleFs, []⟩ "flight.csv") "flight.csv").displayed =
      [fig, fig] :=
  plot_rerun_same_figure ⟨exampleFs, []⟩ "flight.csv" exampleFile (by decide)
    (by decide)

/-- Claim C6: columns other than the nine required ones do not influence the
output: two well-formed readable files that agree on the row-ordered values
of each of the nine required columns produce identical figures (same vertex
sequences, titles and labels), whatever their extra columns hold. -/
theorem plot_ignores_extra_columns {α : Type} (fs1 fs2 : FileSystem α)
    (p1 p2 : String) (f1 f2 : CsvFile α) (hfs1 : fs1 p1 = some f1)
    (hfs2 : fs2 p2 = some f2) (hwf1 : f1.wellFormed) (hwf2 : f2.wellFormed)
    (hagree : ∀ c ∈ requiredColumns, f1.colD c = f2.colD c) :
    plot_flight_data fs1 p1 = plot_flight_data fs2 p2 := by
  rw [plot_flight_data_eq hfs1 hwf1.1, plot_flight_data_eq hfs2 hwf2.1]
  have e1 := hagree "Sx" (by simp [requiredColumns])
  have e2 := hagree "Sy" (by simp [requiredColumns])
  have e3 := hagree "Sz" (by simp [requiredColumns])
  have e4 := hagree "Vx" (by simp [requiredColumns])
  have e5 := hagree "Vy" (by simp [requiredColumns])
  have e6 := hagree "Vz" (by simp [requiredColumns])
  have e7 := hagree "Ax" (by simp [requiredColumns])
  have e8 := hagree "Ay" (by simp [requiredColumns])
  have e9 := hagree "Az" (by simp [requiredColumns])
  simp [figureOf, e1, e2, e3, e4, e5, e6, e7, e8, e9]

/-- Witness for the preceding theorem: the two-row example file against the
same data extended with an extra column `T`. -/
theorem plot_ignores_extra_columns_witness :
    plot_flight_data (fun _ => some exampleFile) "a.csv" =
      plot_flight_data (fun _ => some exampleFileExtra) "b.csv" :=
  plot_ignores_extra_columns (fun _ => some exampleFile)
    (fun _ => some exampleFileExtra) "a.csv" "b.csv" exampleFile
    exampleFileExtra rfl rfl (by decide) (by decide) (by decide)

/-- Claim C7: for the concrete input with two data rows where `Sx = [0,1]`,
`Sy = [0,2]`, `Sz = [0,3]` (and the `Vx..Az` columns present), the Position
panel's plotted line visits the point (0,0,0) first and the point (1,2,3)
second, in that order. -/
theorem plot_example_two_rows :
    ∃ fig, plot_flight_data exampleFs "flight.csv" = .ok fig ∧
      (fig.panels.map Panel.line).head? = some [(0, 0, 0), (1, 2, 3)] :=
  ⟨figureOf exampleFile, by rfl, by decide⟩

/-- Claim C8: the script's entry point takes no command-line arguments — its
result is the same whatever the argument vector holds — and the path passed
to the renderer is the fixed literal string constant of the `__main__`
block. -/
theorem script_main_ignores_argv {α : Type} (fs : FileSystem α)
    (argv1 argv2 : List String) :
    scriptMain fs argv1 = scriptMain fs argv2 ∧
    scriptMain fs argv1 = plot_flight_data fs launchrailCsvPath ∧
    launchrailCsvPath = "/Users/adambyrne/.launchrail/motion/2025-01-26T21:47:39.csv" :=
  ⟨rfl, rfl, rfl⟩

/-- Claim C9: for a readable input file whose header holds all nine required
columns but which has zero data rows, the renderer completes successfully,
producing the three titled panels each with an empty (zero-vertex) line,
rather than failing. -/
theorem plot_zero_rows_ok {α : Type} (fs : FileSystem α) (path : String)
    (f : CsvFile α) (hfs : fs path = some f)
    (h9 : ∀ c ∈ requiredColumns, c ∈ f.header) (h0 : f.rows = []) :
    ∃ fig, plot_flight_data fs path = .ok fig ∧
      fig.panels.map Panel.line = [[], [], []] ∧
      fig.panels.map Panel.title = ["Position", "Velocity", "Acceleration"] := by
  refine ⟨figureOf f, plot_flight_data_eq hfs h9, ?_, by simp [figureOf]⟩
  simp [figureOf, colD_nil f h0]

/-- Witness for the preceding theorem at a concrete header-only file. -/
theorem plot_zero_rows_ok_witness :
    ∃ fig, plot_flight_data (fun _ => some emptyFile) "empty.csv" = .ok fig ∧
      fig.panels.map Panel.line = [[], [], []] ∧
      fig.panels.map Panel.title = ["Position", "Velocity", "Acceleration"] :=
  plot_zero_rows_ok (fun _ => some emptyFile) "empty.csv" emptyFile rfl
    (by decide) rfl

/-- Claim C10: required columns are looked up in the fixed order Sx, Sy, Sz,
Vx, Vy, Vz, Ax, Ay, Az, so when several required columns are missing from a
readable file, the schema failure that propagates names exactly the first
missing column in that order (the first hit of `List.find?` over the ordered
required-column list). -/
theorem plot_first_missing_column_reported {α : Type} (fs : FileSystem α)
    (path : String) (f : CsvFile α) (c : String) (hfs : fs path = some f)
    (hfind : requiredColumns.find? (fun c0 => !(decide (c0 ∈ f.header))) = some c) :
    plot_flight_data fs path = .error (.missingColumn c) :=
  plot_error_first_missing hfs hfind

/-- Witness for the preceding theorem: a file lacking `Sy`, `Vx` and more
(with `Sx` present) is reported with `Sy`, the first missing column. -/
theorem plot_first_missing_column_reported_witness :
    plot_flight_data (fun _ => some missingColFile) "motion2.csv" =
      .error (.missingColumn "Sy") :=
  plot_first_missing_column_reported (fun _ => some missingColFile)
    "motion2.csv" missingColFile "Sy" rfl (by decide)

end Launchrail
